import Mathlib

/-!
Shallow embedding of the ClimWIP diagnostics module
(`src/functions/diagnostics.py`).

Modelling conventions:
* floating point data values are `Option ℚ`, with `none` playing the role
  of IEEE NaN (the module's missing-value sentinel); the numpy/xarray
  reductions used by the source are embedded with their skipna semantics
  made explicit;
* a labelled `xarray` data array is a `Field`: a time axis, the lat/lon
  coordinate vectors, one time series per grid cell (cell-major layout),
  and the `units` attribute (the only attribute the module reads);
* Python exceptions are `Except PyErr`;
* external collaborators (the netCDF store, the regionmask catalogue, the
  land/sea mask, the float square root used by `std`) are parameters
  collected in an `Env` record.
-/

namespace ClimWIP

/-- A missing-capable numeric value: `none` models IEEE NaN. -/
abbrev F := Option ℚ

/-- NaN-propagating sum: the sum is missing as soon as one term is
(numpy sum semantics, used by all `skipna=False` reductions). -/
def strictSum (l : List F) : F :=
  l.foldr (fun o acc => o.bind fun a => acc.map fun b => a + b) (some 0)

/-- NaN-propagating mean (`mean(..., skipna=False)` in the source); the mean
of an empty slice is NaN. -/
def strictMean (l : List F) : F :=
  if l.length = 0 then none else (strictSum l).map fun s => s / (l.length : ℚ)

/-- Skip-missing mean (xarray's default `skipna=True`, used only by the
`CYC` aggregation); an all-missing slice averages to NaN. -/
def skipMean (l : List F) : F :=
  let vs := l.filterMap id
  if vs.length = 0 then none else some (vs.sum / (vs.length : ℚ))

/-- A calendar timestamp at the granularity the module uses: `time.year`
drives `CLIM`, `time.month` drives seasons and `CYC`. -/
structure Tm where
  year : Nat
  month : Nat
deriving DecidableEq, Repr

/-- The embedded `xarray.DataArray`: cell-major data (one time series per
grid cell, each aligned with `time`), coordinate vectors, and the `units`
attribute.  Coordinates are stored in exact centidegrees (so the fixed
2.5-degree grid values -88.75, -86.25, ... are the integers -8875,
-8625, ...). -/
structure Field where
  time : List Tm
  lat : List ℤ
  lon : List ℤ
  cells : List (List F)
  units : Option String
deriving DecidableEq, Repr

/-- Pointwise data update (`da.data *= c` and friends); NaN cells stay NaN. -/
def Field.mapData (da : Field) (f : ℚ → ℚ) : Field :=
  { da with cells := da.cells.map fun s => s.map fun v => v.map f }

/-- Overwrite the `units` attribute (`da.attrs['units'] = newunit`). -/
def Field.setUnits (da : Field) (u : String) : Field :=
  { da with units := some u }

/-- The embedded Python exceptions raised by the module. -/
inductive PyErr where
  | keyError (key : String)
  | typeError (msg : String)
  | valueError (msg : String)
  | attributeError (msg : String)
  | notImplErr (msg : String)
  | assertionError (msg : String)
  | fileNotFound (path : String)
deriving DecidableEq, Repr

/-- The ASCII upper-to-lower case table. -/
def asciiCasePairs : List (Char × Char) :=
  [('A', 'a'), ('B', 'b'), ('C', 'c'), ('D', 'd'), ('E', 'e'), ('F', 'f'),
   ('G', 'g'), ('H', 'h'), ('I', 'i'), ('J', 'j'), ('K', 'k'), ('L', 'l'),
   ('M', 'm'), ('N', 'n'), ('O', 'o'), ('P', 'p'), ('Q', 'q'), ('R', 'r'),
   ('S', 's'), ('T', 't'), ('U', 'u'), ('V', 'v'), ('W', 'w'), ('X', 'x'),
   ('Y', 'y'), ('Z', 'z')]

/-- ASCII lower-casing of one character (`str.lower` on the ASCII unit
strings the module handles). -/
def pyLowerChar (c : Char) : Char :=
  match asciiCasePairs.find? fun p => p.1 = c with
  | some p => p.2
  | none => c

/-- Python's `str.lower()` on the ASCII unit strings the module handles. -/
def pyLower (s : String) : String :=
  String.mk (s.data.map pyLowerChar)

/-- Decidable equality of embedded Python outcomes. -/
def exceptDecEq {ε α : Type} [DecidableEq ε] [DecidableEq α] :
    DecidableEq (Except ε α) := fun a b =>
  match a, b with
  | .ok x, .ok y =>
      if h : x = y then .isTrue (by simp [h]) else .isFalse (by simp [h])
  | .error e, .error f =>
      if h : e = f then .isTrue (by simp [h]) else .isFalse (by simp [h])
  | .ok _, .error _ => .isFalse (by simp)
  | .error _, .ok _ => .isFalse (by simp)

instance {ε α : Type} [DecidableEq ε] [DecidableEq α] :
    DecidableEq (Except ε α) := exceptDecEq

/-- The three possible outcomes of `standardize_units`: the Python `None`
sentinel (no `units` attribute), a returned field, or a raised
`ValueError`. -/
inductive UnitResult where
  | pynone
  | ok (f : Field)
  | err (msg : String)
deriving DecidableEq, Repr

/-- Embedding of `standardize_units(da, varn)` (diagnostics.py lines
74-145): dispatch on the variable name, then on the declared unit string,
converting data in place and stamping the canonical unit.  Note that the
pressure branch compares `unit.lower()` against the mixed-case literal
`'hPa'`, exactly as the source does. -/
def standardize_units (da : Field) (varn : String) : UnitResult :=
  match da.units with
  | none => .pynone
  | some unit =>
    if varn = "pr" then
      if unit = "kg m-2 s-1" then
        .ok ((da.mapData fun x => x * (24 * 60 * 60)).setUnits "mm/day")
      else if unit = "mm" then .ok (da.setUnits "mm/day")
      else if unit = "mm/day" then .ok da
      else .err ("Unit " ++ unit ++ " not covered for " ++ varn)
    else if varn ∈ ["tas", "tasmax", "tasmin", "tos"] then
      if unit = "degC" then .ok da
      else if unit = "K" then
        .ok ((da.mapData fun x => x - 27315 / 100).setUnits "degC")
      else if pyLower unit ∈ ["degc", "deg_c", "celsius", "degreec",
                              "degree_c", "degree_celsius"] then
        .ok (da.setUnits "degC")
      else .err ("Unit " ++ unit ++ " not covered for " ++ varn)
    else if varn = "psl" then
      if pyLower unit = "pa" then .ok da
      else if pyLower unit = "hPa" then
        .ok ((da.mapData fun x => x * 100).setUnits "pa")
      else .err ("Unit " ++ unit ++ " not covered for " ++ varn)
    else if varn ∈ ["rsds", "rsus", "rlds", "rlus", "rnet"] then
      if unit = "W m**-2" then .ok da
      else if unit = "W m-2" then .ok (da.setUnits "W m**-2")
      else .err ("Unit " ++ unit ++ " not covered for " ++ varn)
    else
      .ok da

/-- Embedding of the `@vectorize` `detrend` kernel (diagnostics.py lines
38-42) on one cell's time series: a series containing any missing value
becomes entirely missing (`data * np.nan`); otherwise the linear
least-squares fit against the 0-based index is removed
(`scipy.signal.detrend`).  A degenerate design matrix (fewer than two
samples) leaves zero residuals. -/
def detrendSeries (s : List F) : List F :=
  if s.any Option.isNone then s.map fun _ => none
  else
    let ys := s.filterMap id
    let n : ℚ := ys.length
    let idx := (List.range ys.length).map fun i => (i : ℚ)
    let sx := idx.sum
    let sxx := (idx.map fun x => x * x).sum
    let sy := ys.sum
    let sxy := (List.zipWith (fun x y => x * y) idx ys).sum
    let denom := n * sxx - sx * sx
    if denom = 0 then ys.map fun _ => some 0
    else
      let b := (n * sxy - sx * sy) / denom
      let a := sy / n - b * (sx / n)
      List.zipWith (fun x y => some (y - (a + b * x))) idx ys

/-- Embedding of the `@vectorize` `trend` kernel (diagnostics.py lines
45-50): NaN if the series contains any missing value, otherwise the
ordinary-least-squares slope of the values against `np.arange(len(data))`
(`scipy.stats.linregress(...).slope`); the slope is undefined (NaN) for a
degenerate design matrix. -/
def trendSeries (s : List F) : F :=
  if s.any Option.isNone then none
  else
    let ys := s.filterMap id
    let n : ℚ := ys.length
    let idx := (List.range ys.length).map fun i => (i : ℚ)
    let sx := idx.sum
    let sxx := (idx.map fun x => x * x).sum
    let sy := ys.sum
    let sxy := (List.zipWith (fun x y => x * y) idx ys).sum
    let denom := n * sxx - sx * sx
    if denom = 0 then none
    else some ((n * sxy - sx * sy) / denom)

/-- The distinct group labels of an xarray `groupby`, in first-occurrence
order.  (xarray sorts the labels; every use below either averages over
all groups, where order cannot matter, or is order-irrelevant to the
properties proved.) -/
def uniqueKeys : List Nat → List Nat
  | [] => []
  | y :: t => y :: (uniqueKeys t).filter fun z => z ≠ y

/-- The `skipna=False` mean of one calendar year's values
(`groupby('time.year').mean('time', skipna=False)` at one year). -/
def yearMean (pairs : List (Nat × F)) (y : Nat) : F :=
  strictMean ((pairs.filter fun p => p.1 = y).map Prod.snd)

/-- One cell of the `CLIM` aggregation (diagnostics.py lines 263-265):
`groupby('time.year').mean('time', skipna=False)` followed by
`mean('year', skipna=False)` — the strict mean of the per-calendar-year
strict means.  The input pairs each data value with its calendar year. -/
def climSeries (pairs : List (Nat × F)) : F :=
  strictMean ((uniqueKeys (pairs.map Prod.fst)).map fun y => yearMean pairs y)

/-- One cell of the `CYC` aggregation (diagnostics.py line 279):
`groupby('time.month').mean('time')` with xarray's default skip-missing
mean, one value per calendar month present in the data. -/
def cycSeries (pairs : List (Nat × F)) : List F :=
  (uniqueKeys (pairs.map Prod.fst)).map fun m =>
    skipMean ((pairs.filter fun p => p.1 = m).map Prod.snd)

/-- Population standard deviation with strict missing-value propagation
(`da.std('time', skipna=False)`); the square-root routine is a parameter
of the model. -/
def strictStd (sq : ℚ → ℚ) (s : List F) : F :=
  if s.any Option.isNone ∨ s.length = 0 then none
  else
    let vs := s.filterMap id
    let m := vs.sum / (vs.length : ℚ)
    some (sq ((vs.map fun x => (x - m) * (x - m)).sum / (vs.length : ℚ)))

/-- NaN-propagating addition on model floats. -/
def oAdd (a b : F) : F := a.bind fun x => b.map fun y => x + y

/-- NaN-propagating subtraction on model floats. -/
def oSub (a b : F) : F := a.bind fun x => b.map fun y => x - y

/-- NaN-propagating multiplication on model floats. -/
def oMul (a b : F) : F := a.bind fun x => b.map fun y => x * y

/-- NaN-propagating division on model floats; `0/0` (the only vanishing
denominator `pearsonr` can produce) is NaN. -/
def oDiv (a b : F) : F :=
  a.bind fun x => b.bind fun y => if y = 0 then none else some (x / y)

/-- NaN-propagating square root (`np.sqrt`), over the model's square-root
routine. -/
def oSqrt (sq : ℚ → ℚ) (a : F) : F :=
  a.bind fun x => if x < 0 then none else some (sq x)

/-- Embedding of the `@vectorize` `_corr` kernel (diagnostics.py lines
327-329): `scipy.stats.pearsonr(arr1, arr2)[0]` with no missing-value
guard — the centred cross moment divided by the root of the product of
the centred second moments, every operation propagating NaN. -/
def corrSeries (sq : ℚ → ℚ) (xs ys : List F) : F :=
  let xm := xs.map fun x => oSub x (strictMean xs)
  let ym := ys.map fun y => oSub y (strictMean ys)
  let num := strictSum (List.zipWith oMul xm ym)
  let den := oSqrt sq (oMul (strictSum (xm.map fun v => oMul v v))
                           (strictSum (ym.map fun v => oMul v v)))
  oDiv num den

/-- Python string helpers, written to be kernel-computable. -/
def replaceAux (pat rep : List Char) : Nat → List Char → List Char
  | _, [] => []
  | 0, l => l
  | fuel + 1, c :: rest =>
    if pat ≠ [] ∧ (c :: rest).take pat.length = pat then
      rep ++ replaceAux pat rep fuel ((c :: rest).drop pat.length)
    else
      c :: replaceAux pat rep fuel rest

/-- Python's `str.replace(pat, rep)`: replace every non-overlapping
occurrence, scanning left to right. -/
def pyReplace (s pat rep : String) : String :=
  String.mk (replaceAux pat.data rep.data s.data.length s.data)

/-- `os.path.basename`: everything after the last slash. -/
def pyBasename (s : String) : String :=
  String.mk (s.data.reverse.takeWhile (fun c => c ≠ '/')).reverse

/-- `os.path.split`: directory part and final component. -/
def pySplit (s : String) : String × String :=
  let r := s.data.reverse
  let fnr := r.takeWhile fun c => c ≠ '/'
  (String.mk ((r.drop fnr.length).drop 1).reverse, String.mk fnr.reverse)

/-- `os.path.join` for the two-argument calls the module makes. -/
def pyJoin (a b : String) : String :=
  if b.data.head? = some '/' then b
  else if a = "" then b
  else if a.data.getLast? = some '/' then a ++ b
  else a ++ "/" ++ b

/-- The fixed 2.5-degree latitude vector `np.arange(-88.75, 90., 2.5)`
asserted by the pipeline (diagnostics.py line 201), in centidegrees. -/
def fixedLats : List ℤ :=
  (List.range 72).map fun i => -8875 + 250 * (i : ℤ)

/-- The fixed 2.5-degree longitude vector `np.arange(-178.75, 180., 2.5)`
asserted by the pipeline (diagnostics.py line 202), in centidegrees. -/
def fixedLons : List ℤ :=
  (List.range 144).map fun i => -17875 + 250 * (i : ℤ)

/-- The region argument after the pipeline's normalisation: `'GLOBAL'`, or
a list of SREX region names (a single name behaves as a one-element
list).  The custom-polygon branch — driven by corner side files through
the external `salem` collaborator — is outside this embedding's scope. -/
inductive Region where
  | GLOBAL
  | srex (names : List String)
deriving DecidableEq, Repr

/-- The external collaborators of the module, as explicit parameters: the
netCDF store (path to field), the float square-root routine, the
`regionmask` catalogue (`map_keys` and per-cell SREX codes), the
natural-earth land mask (`True` = land cell), and the `cdo.remapbil`
regridder. -/
structure Env where
  store : String → Option Field
  sqrtQ : ℚ → ℚ
  mapKeys : String → Int
  srexCodesOf : Field → List Int
  landOf : Field → List Bool
  regridOf : String → String

/-- Keep only the timesteps satisfying `p`, dropping the matching entries
of every cell's series (boolean time indexing). -/
def filterTime (p : Tm → Bool) (da : Field) : Field :=
  { da with
    time := da.time.filter p
    cells := da.cells.map fun s =>
      ((da.time.zip s).filter fun q => p q.1).map Prod.snd }

/-- `da.sel(time=slice(start, end))` at the year granularity the driver
uses: inclusive bounds, a no-op when unset (diagnostics.py lines
204-205). -/
def selTime (tp : Option (Nat × Nat)) (da : Field) : Field :=
  match tp with
  | none => da
  | some p => filterTime (fun t => decide (p.1 ≤ t.year ∧ t.year ≤ p.2)) da

/-- The three calendar months of a meteorological season. -/
def seasonMonths (s : String) : List Nat :=
  if s = "DJF" then [12, 1, 2]
  else if s = "MAM" then [3, 4, 5]
  else if s = "JJA" then [6, 7, 8]
  else if s = "SON" then [9, 10, 11]
  else []

/-- Season selection (diagnostics.py lines 207-212): a recognised season
keeps its three months, `None`/`'ANN'` is a no-op, and anything else
raises `NotImplementedError`. -/
def selSeason (season : Option String) (da : Field) : Except PyErr Field :=
  match season with
  | some s =>
    if s ∈ ["JJA", "SON", "DJF", "MAM"] then
      .ok (filterTime (fun t => decide (t.month ∈ seasonMonths s)) da)
    else if s = "ANN" then .ok da
    else .error (.notImplErr ("season=" ++ s))
  | none => .ok da

/-- `da.where(mask)`: cells outside the mask become missing at every
timestep. -/
def maskWhere (mask : List Bool) (da : Field) : Field :=
  { da with
    cells := List.zipWith
      (fun keep s => if keep then s else s.map fun _ => none)
      mask da.cells }

/-- `np.all(np.isnan(da.isel(time=0)))`: no cell has a present value at
the first timestep. -/
def firstAllMissing (da : Field) : Bool :=
  da.cells.all fun s =>
    match s.head? with
    | some (some _) => false
    | _ => true

/-- Region selection (diagnostics.py lines 214-248) for the SREX branch:
resolve the requested names to region codes, keep a cell iff it is
covered by exactly one requested region (`sum(masks) == 1`), mask the
rest to missing, and fail with the `'All grid points masked!'`
`ValueError` when the first time slice has no present value left.
`'GLOBAL'` skips everything, including that check.  (The `salem.subset`
extent crop is not represented: it only drops fully-masked cells and
cannot change the outcome of the all-masked check or any retained cell's
series.) -/
def selRegion (env : Env) (region : Region) (da : Field) : Except PyErr Field :=
  match region with
  | .GLOBAL => .ok da
  | .srex names =>
    let codes := env.srexCodesOf da
    let keys := names.map env.mapKeys
    let mask := codes.map fun c =>
      decide ((keys.map fun k => if c = k then (1 : Nat) else 0).sum = 1)
    let da2 := maskWhere mask da
    if firstAllMissing da2 then
      .error (.valueError "All grid points masked! Wrong masking settings?")
    else .ok da2

/-- Ocean masking (diagnostics.py lines 250-252): when requested, keep
only the land cells of the natural-earth mask; applied with no emptiness
check of its own. -/
def selOcean (env : Env) (maskOcean : Bool) (da : Field) : Field :=
  if maskOcean then maskWhere (env.landOf da) da else da

/-- Lines 254-255 of the source: run `standardize_units` and then read
`.attrs` off its result — the Python `None` sentinel therefore crashes
with `AttributeError`, and the `ValueError` of an unsupported unit
propagates. -/
def unitsStage (varn : String) (da : Field) : Except PyErr Field :=
  match standardize_units da varn with
  | .pynone => .error (.attributeError "NoneType object has no attribute attrs")
  | .err m => .error (.valueError m)
  | .ok da2 => .ok da2

/-- The aggregation tokens the dispatch block recognises
(diagnostics.py lines 263-283). -/
def knownAggs : List (Option String) :=
  [none, some "CLIM", some "STD", some "TREND", some "CYC", some "CORR"]

/-- The time-aggregation dispatch block (diagnostics.py lines 263-283).
`CLIM`/`STD`/`TREND`/`CYC` collapse the time axis per cell; `TREND` also
rewrites the unit attribute to `'<unit> year**-1'`; `None` and `'CORR'`
pass the field through.  Any other token ALSO passes the field through
unchanged: the source's `else` branch constructs
`NotImplementedError(...)` without `raise`, so no error escapes and the
unreduced field flows on (line 283). -/
def aggStage (sq : ℚ → ℚ) (agg : Option String) (da : Field) : Field :=
  if agg = some "CLIM" then
    { da with
      time := []
      cells := da.cells.map fun s => [climSeries ((da.time.map Tm.year).zip s)] }
  else if agg = some "STD" then
    { da with
      time := []
      cells := da.cells.map fun s => [strictStd sq (detrendSeries s)] }
  else if agg = some "TREND" then
    { da with
      time := []
      cells := da.cells.map fun s => [trendSeries s]
      units := da.units.map fun u => u ++ " year**-1" }
  else if agg = some "CYC" then
    { da with
      time := []
      cells := da.cells.map fun s => cycSeries ((da.time.map Tm.month).zip s) }
  else
    da

/-- Lines 285-290 of the source: wrap the array into a dataset, write it
to `outfile` when one was given, and return it; the write is recorded in
the result. -/
def persistStep (outfile : Option String) (da : Field) :
    Except PyErr (Field × Option (String × Field)) :=
  match outfile with
  | some p => .ok (da, some (p, da))
  | none => .ok (da, none)

/-- Embedding of `calculate_basic_diagnostic` (diagnostics.py lines
148-290).  The result carries the returned field together with the write
the call performed on the store (`ds.to_netcdf(outfile)`), if any.  The
external `standardize_dimensions` helper only canonicalises dimension
names and is the identity on the embedded `Field`. -/
def calculate_basic_diagnostic (env : Env) (infile varn : String)
    (outfile : Option String) (tp : Option (Nat × Nat))
    (season : Option String) (agg : Option String)
    (maskOcean : Bool) (region : Region)
    (overwrite : Bool) (regrid : Bool) :
    Except PyErr (Field × Option (String × Field)) :=
  let cached : Option Field :=
    match outfile with
    | some p => if overwrite then none else env.store p
    | none => none
  match cached with
  | some f => .ok (f, none)
  | none =>
    let infile2 := if regrid then env.regridOf infile else infile
    match env.store infile2 with
    | none => .error (.fileNotFound infile2)
    | some da0 =>
      if da0.lat ≠ fixedLats then
        .error (.assertionError "lat coordinates do not match the fixed grid")
      else if da0.lon ≠ fixedLons then
        .error (.assertionError "lon coordinates do not match the fixed grid")
      else do
        let da1 := selTime tp da0
        let da2 ← selSeason season da1
        let da3 ← selRegion env region da2
        let da4 := selOcean env maskOcean da3
        let da5 ← unitsStage varn da4
        let da6 := aggStage env.sqrtQ agg da5
        persistStep outfile da6

/-- The `region` keyword argument as the caller passes it: a single name
or a list of names (`get_outfile` joins a list with `'-'`). -/
inductive RegionArg where
  | rstr (s : String)
  | rlist (ns : List String)
deriving DecidableEq, Repr

/-- The keyword arguments forwarded by `calculate_diagnostic` to
`get_outfile` and `calculate_basic_diagnostic`.  The outer `Option` of
each entry records whether the key is present in `kwargs` at all (absence
makes `get_outfile` fail with `KeyError`); for `time_period`, `season`
and `time_aggregation` the inner `Option` is the Python `None` the
pipeline's defaults use. -/
structure Kwargs where
  timePeriod : Option (Option (Nat × Nat))
  season : Option (Option String)
  timeAggregation : Option (Option String)
  region : Option RegionArg
  maskOcean : Option Bool
  overwrite : Option Bool
  regrid : Option Bool
deriving DecidableEq, Repr

/-- `kwargs` value reaching `calculate_basic_diagnostic`'s `time_period`
parameter (its default is `None`). -/
def Kwargs.tpVal (k : Kwargs) : Option (Nat × Nat) := k.timePeriod.getD none

/-- `kwargs` value reaching the `season` parameter. -/
def Kwargs.seasonVal (k : Kwargs) : Option String := k.season.getD none

/-- `kwargs` value reaching the `time_aggregation` parameter. -/
def Kwargs.aggVal (k : Kwargs) : Option String := k.timeAggregation.getD none

/-- `kwargs` value reaching the `mask_ocean` parameter (default `False`). -/
def Kwargs.maskOceanVal (k : Kwargs) : Bool := k.maskOcean.getD false

/-- `kwargs` value reaching the `overwrite` parameter (default `False`). -/
def Kwargs.overwriteVal (k : Kwargs) : Bool := k.overwrite.getD false

/-- `kwargs` value reaching the `regrid` parameter (default `False`). -/
def Kwargs.regridVal (k : Kwargs) : Bool := k.regrid.getD false

/-- `kwargs` value reaching the `region` parameter (default `'GLOBAL'`);
a plain SREX name behaves as a one-element list (diagnostics.py lines
234-235). -/
def Kwargs.regionVal (k : Kwargs) : Region :=
  match k.region with
  | none => .GLOBAL
  | some (.rstr s) => if s = "GLOBAL" then .GLOBAL else .srex [s]
  | some (.rlist ns) => .srex ns

/-- How Python renders an optional string into the filename template
(`format` writes `None` for the `None` value). -/
def pyFmt (o : Option String) : String :=
  match o with
  | none => "None"
  | some s => s

/-- Embedding of the nested `get_outfile` helper (diagnostics.py lines
318-325): the output path is
`base_path/<basename(infile) sans .nc>_<start>-<end>_<season>_<aggregation>_<region>.nc`.
A missing `region`/`time_period`/`season`/`time_aggregation` key raises
`KeyError`, and `time_period=None` raises `TypeError` when the template
subscripts it.  The `mask_ocean` flag and the variable name are not part
of the path. -/
def get_outfile (basePath : String) (infileArg : String) (k : Kwargs) :
    Except PyErr String :=
  let infile := pyReplace (pyBasename infileArg) ".nc" ""
  match k.region with
  | none => .error (.keyError "region")
  | some r =>
    let regionStr :=
      match r with
      | .rstr s => s
      | .rlist ns => String.intercalate "-" ns
    match k.timePeriod with
    | none => .error (.keyError "time_period")
    | some none => .error (.typeError "NoneType object is not subscriptable")
    | some (some p) =>
      match k.season with
      | none => .error (.keyError "season")
      | some s =>
        match k.timeAggregation with
        | none => .error (.keyError "time_aggregation")
        | some a =>
          .ok (pyJoin basePath
            (infile ++ "_" ++ toString p.1 ++ "-" ++ toString p.2 ++ "_" ++
             pyFmt s ++ "_" ++ pyFmt a ++ "_" ++ regionStr ++ ".nc"))

/-- Pointwise arithmetic on two fields with aligned cells
(`(da1-da2) + (da3-da4)`). -/
def fieldZip (f : F → F → F) (a b : Field) : Field :=
  { a with cells := List.zipWith (List.zipWith f) a.cells b.cells }

/-- Embedding of `calculate_net_radiation` (diagnostics.py lines 53-71):
assert the four flux variables, open the four companion files obtained by
substituting the variable token in the input path, combine them
pointwise, and stamp the first file's unit.  The caller persists the
result under the temporary path. -/
def calculate_net_radiation (env : Env) (infile : String)
    (varns : List String) : Except PyErr Field :=
  if varns ≠ ["rlds", "rlus", "rsds", "rsus"] then
    .error (.assertionError "varns is not the net-radiation flux tuple")
  else
    match varns with
    | v0 :: v1 :: v2 :: v3 :: _ =>
      match env.store infile,
            env.store (pyReplace infile v0 v1),
            env.store (pyReplace infile v0 v2),
            env.store (pyReplace infile v0 v3) with
      | some da1, some da2, some da3, some da4 =>
        match da1.units with
        | none => .error (.attributeError "units")
        | some u =>
          .ok ((fieldZip oAdd (fieldZip oSub da1 da2)
                 (fieldZip oSub da3 da4)).setUnits u)
      | _, _, _, _ => .error (.fileNotFound infile)
    | _ => .error (.assertionError "varns is not the net-radiation flux tuple")

/-- Per-cell Pearson correlation of two time-resolved fields
(`xr.apply_ufunc(_corr, ds1[varn1], ds2[varn2])`, diagnostics.py lines
361-362): the time axis collapses, attributes are dropped, and the
dispatcher stamps unit `'1'`. -/
def corrField (sq : ℚ → ℚ) (a b : Field) : Field :=
  { time := []
    lat := a.lat
    lon := a.lon
    cells := List.zipWith (fun s1 s2 => [corrSeries sq s1 s2]) a.cells b.cells
    units := some "1" }

/-- Apply a recorded write to the store. -/
def applyWrite (store : String → Option Field)
    (w : Option (String × Field)) : String → Option Field :=
  match w with
  | none => store
  | some pf => fun q => if q = pf.1 then some pf.2 else store q

/-- The `diagn` argument of `calculate_diagnostic`: a bare variable name,
or a one-entry mapping from a derived-diagnostic name to its constituent
basic variables. -/
inductive Diagn where
  | basic (v : String)
  | derived (name : String) (varns : List String)
deriving DecidableEq, Repr

/-- What `calculate_diagnostic` hands back: a dataset, or Python's `None`
(the value a function body returns when it falls off the end). -/
inductive PyRet where
  | ds (f : Field)
  | pynone
deriving DecidableEq, Repr

/-- Embedding of `calculate_diagnostic` (diagnostics.py lines 293-367).
A bare name resolves its output path and delegates to the basic pipeline;
`'rnet'` derives net radiation into a temporary file first; a two-variable
spec under `time_aggregation == 'CORR'` runs the basic pipeline for both
variables (locating the companion file by substring substitution of the
variable token) and correlates them per cell; ANY other derived spec falls
off the end of the function and returns Python `None`. -/
def calculate_diagnostic (env : Env) (infile : String) (diagn : Diagn)
    (basePath : String) (k : Kwargs) : Except PyErr PyRet :=
  match diagn with
  | .basic v => do
    let outfile ← get_outfile basePath infile k
    let r ← calculate_basic_diagnostic env infile v (some outfile)
      k.tpVal k.seasonVal k.aggVal k.maskOceanVal k.regionVal
      k.overwriteVal k.regridVal
    pure (.ds r.1)
  | .derived name varns =>
    if name = "rnet" then
      match varns with
      | [] => .error (.keyError "varns[0]")
      | v0 :: _ => do
        let tmpfile := pyJoin basePath (pyReplace (pyBasename infile) v0 name)
        let rf ← calculate_net_radiation env infile varns
        let env2 := { env with
          store := fun q => if q = tmpfile then some rf else env.store q }
        let outfile ← get_outfile basePath tmpfile k
        let r ← calculate_basic_diagnostic env2 tmpfile name (some outfile)
          k.tpVal k.seasonVal k.aggVal k.maskOceanVal k.regionVal
          k.overwriteVal k.regridVal
        pure (.ds r.1)
    else
      match k.timeAggregation with
      | none => .error (.keyError "time_aggregation")
      | some aggv =>
        if aggv = some "CORR" then
          match varns with
          | [v0, v1] =>
            if v0 = v1 then
              .error (.assertionError "can not correlate same variables")
            else do
              let outfile1 ← get_outfile basePath infile k
              let r1 ← calculate_basic_diagnostic env infile v0 (some outfile1)
                k.tpVal k.seasonVal k.aggVal k.maskOceanVal k.regionVal
                k.overwriteVal k.regridVal
              let pr := pySplit infile
              let fn2 := pyReplace pr.2 (v0 ++ "_") (v1 ++ "_")
              let path2 := pyReplace (pr.1 ++ "/") ("/" ++ v0 ++ "/")
                ("/" ++ v1 ++ "/")
              let infile2 := pyJoin path2 fn2
              let env2 := { env with store := applyWrite env.store r1.2 }
              let outfile2 ← get_outfile basePath infile2 k
              let r2 ← calculate_basic_diagnostic env2 infile2 v1 (some outfile2)
                k.tpVal k.seasonVal k.aggVal k.maskOceanVal k.regionVal
                k.overwriteVal k.regridVal
              pure (.ds (corrField env.sqrtQ r1.1 r2.1))
          | _ => .error (.assertionError "can only correlate two variables")
        else
          .ok .pynone

/-- A concrete sea-level-pressure field declared in hectopascal. -/
def pslHpaField : Field :=
  { time := [⟨2000, 1⟩]
    lat := []
    lon := []
    cells := [[some 1013]]
    units := some "hPa" }

/-- Did the embedded call complete without a Python exception? -/
def isOkE {α : Type} : Except PyErr α → Bool
  | .ok _ => true
  | .error _ => false

/-- A store holding exactly one file. -/
def storeOf (p : String) (f : Field) : String → Option Field :=
  fun q => if q = p then some f else none

/-- A concrete environment: `in.nc` holds the given field, the SREX
catalogue resolves `'CEU'` to code 11 and reports the given per-cell
codes, and the land mask is as given. -/
def envOf (f : Field) (codes : List Int) (land : List Bool) : Env :=
  { store := storeOf "in.nc" f
    sqrtQ := fun q => q
    mapKeys := fun s => if s = "CEU" then 11 else 0
    srexCodesOf := fun _ => codes
    landOf := fun _ => land
    regridOf := fun s => s }

/-- A valid-grid one-cell temperature field already in degree Celsius
(so unit normalisation is a pass-through and concrete runs stay exactly
computable). -/
def degCField : Field :=
  { time := [⟨2000, 1⟩, ⟨2000, 7⟩, ⟨2001, 7⟩]
    lat := fixedLats
    lon := fixedLons
    cells := [[some 10, some 12, some 14]]
    units := some "degC" }

/-- The same field with the `units` attribute absent. -/
def noUnitsField : Field := { degCField with units := none }

/-- No ASCII lower-casing result is the upper-case letter `P`, so the
source's comparison `unit.lower() == 'hPa'` can never succeed. -/
theorem pyLowerChar_ne_upper_p (c : Char) : pyLowerChar c ≠ 'P' := by
  have hall : ∀ x ∈ asciiCasePairs, x.2 ≠ 'P' := by decide
  intro h
  unfold pyLowerChar at h
  cases hf : asciiCasePairs.find? fun p => p.1 = c with
  | some p =>
    rw [hf] at h
    change p.2 = 'P' at h
    exact hall p (List.mem_of_find?_eq_some hf) h
  | none =>
    rw [hf] at h
    change c = 'P' at h
    rw [List.find?_eq_none] at hf
    have hne := hf ('P', 'p') (by decide)
    simp only [decide_eq_true_eq] at hne
    exact hne h.symm

/-- Consequence: no unit string lower-cases to the literal `hPa`. -/
theorem pyLower_ne_hPa (u : String) : pyLower u ≠ "hPa" := by
  intro h
  have hd : u.data.map pyLowerChar = ['h', 'P', 'a'] := by
    have := congrArg String.data h
    simpa [pyLower] using this
  have hp : 'P' ∈ u.data.map pyLowerChar := by rw [hd]; decide
  obtain ⟨c, _, hc⟩ := List.mem_map.mp hp
  exact pyLowerChar_ne_upper_p c hc

/-- C1: with a `time_aggregation` token outside
`{None, CLIM, STD, TREND, CYC, CORR}` the basic pipeline does NOT fail:
the source constructs `NotImplementedError` without raising it
(diagnostics.py line 283), so the aggregation dispatch leaves the field
untouched, the call completes without error and the unreduced field is
persisted.  (The claim, and section 7 of the specification, say such a
token is a fatal `UnsupportedAggregation`-style failure.) -/
theorem unsupported_aggregation_silently_ignored :
    (∀ (sq : ℚ → ℚ) (agg : Option String) (da : Field),
        agg ∉ knownAggs → aggStage sq agg da = da) ∧
    calculate_basic_diagnostic (envOf degCField [11] [true]) "in.nc" "tas"
        (some "/out/x.nc") none none (some "XYZ") false .GLOBAL false false
      = .ok (degCField, some ("/out/x.nc", degCField)) := by
  constructor
  · intro sq agg da h
    simp only [knownAggs, List.mem_cons, List.not_mem_nil, or_false,
      not_or] at h
    obtain ⟨h0, h1, h2, h3, h4, h5⟩ := h
    simp [aggStage, h1, h2, h3, h4]
  · decide

/-- Witness for the universally quantified part of the previous theorem:
the unrecognised token `XYZ` passes the concrete field through the
aggregation dispatch unchanged. -/
theorem unsupported_aggregation_silently_ignored_w :
    aggStage (fun q => q) (some "XYZ") degCField = degCField :=
  unsupported_aggregation_silently_ignored.1 _ _ _ (by decide)

/-- C2: a field with no declared unit makes `standardize_units` return
the Python `None` sentinel, and `calculate_basic_diagnostic` then
immediately reads `.attrs` off that `None` (diagnostics.py line 255), so
the pipeline crashes with `AttributeError` instead of treating the
sentinel as a non-fatal skip. -/
theorem missing_units_crashes_pipeline :
    standardize_units noUnitsField "tas" = .pynone ∧
    calculate_basic_diagnostic (envOf noUnitsField [11] [true]) "in.nc"
        "tas" none none none none false .GLOBAL false false
      = .error (.attributeError "NoneType object has no attribute attrs") := by
  constructor
  · decide
  · decide

/-- C3: for `psl` declared in `'hPa'` the unit normaliser raises
`ValueError` instead of converting: the source compares the lower-cased
unit against the mixed-case literal `'hPa'` (diagnostics.py line 121), a
comparison that can never succeed, so the x100 conversion branch is dead
code and every non-`pa` unit (including `'hPa'`) is rejected. -/
theorem psl_hpa_rejected :
    standardize_units pslHpaField "psl" =
      .err "Unit hPa not covered for psl" ∧
    (∀ u : String, pyLower u ≠ "hPa") ∧
    (∀ (da : Field) (u : String), da.units = some u →
      standardize_units da "psl" =
        if pyLower u = "pa" then .ok da
        else .err ("Unit " ++ u ++ " not covered for " ++ "psl")) := by
  refine ⟨by decide, pyLower_ne_hPa, ?_⟩
  intro da u h
  simp [standardize_units, h, pyLower_ne_hPa u]

/-- Witness for the hypothesis-bearing part of the previous theorem,
instantiated at the concrete hectopascal pressure field. -/
theorem psl_hpa_rejected_w :
    standardize_units pslHpaField "psl" =
      if pyLower "hPa" = "pa" then .ok pslHpaField
      else .err ("Unit " ++ "hPa" ++ " not covered for " ++ "psl") :=
  psl_hpa_rejected.2.2 pslHpaField "hPa" rfl

/-- C4: a derived `DiagnosticSpec` that is neither `'rnet'` nor a
correlation request falls off the end of `calculate_diagnostic`
(diagnostics.py lines 331-367 have no final `else`), returning Python
`None` with no error — contradicting both the specification's "hard
failure" requirement and the function's own docstring, which promises a
dataset. -/
theorem unknown_derivation_returns_none :
    ∀ (env : Env) (infile basePath : String) (k : Kwargs)
      (name : String) (varns : List String) (aggv : Option String),
      name ≠ "rnet" → k.timeAggregation = some aggv →
      aggv ≠ some "CORR" →
      calculate_diagnostic env infile (.derived name varns) basePath k
        = .ok .pynone := by
  intro env infile basePath k name varns aggv h1 h2 h3
  simp [calculate_diagnostic, h1, h2, h3]

/-- Witness: requesting the derived diagnostic `tasclt` under `CLIM`
aggregation silently returns `None`. -/
theorem unknown_derivation_returns_none_w :
    calculate_diagnostic (envOf degCField [] []) "in.nc"
        (.derived "tasclt" ["tas", "clt"]) "/out"
        { timePeriod := some (some (2000, 2001))
          season := some (some "JJA")
          timeAggregation := some (some "CLIM")
          region := some (.rstr "GLOBAL")
          maskOcean := some false, overwrite := some false
          regrid := some false }
      = .ok .pynone :=
  unknown_derivation_returns_none _ _ _ _ _ _ _ (by decide) rfl (by decide)

/-- Keyword arguments with the ocean mask requested. -/
def kMaskLand : Kwargs :=
  { timePeriod := some (some (2000, 2001))
    season := some (some "JJA")
    timeAggregation := some (some "CLIM")
    region := some (.rstr "CEU")
    maskOcean := some true, overwrite := some false, regrid := some false }

/-- The same keyword arguments with the ocean mask off. -/
def kMaskAll : Kwargs := { kMaskLand with maskOcean := some false }

/-- C5 counterexample: two invocations whose cache keys differ only in
the mask-ocean flag are mapped by `get_outfile` to the SAME output path
(the filename template uses only the input basename, the time window, the
season, the aggregation and the region), so the claimed
never-collide property fails. -/
theorem outfile_ignores_mask_ocean :
    kMaskLand.maskOcean ≠ kMaskAll.maskOcean ∧
    kMaskLand.timePeriod = kMaskAll.timePeriod ∧
    kMaskLand.season = kMaskAll.season ∧
    kMaskLand.timeAggregation = kMaskAll.timeAggregation ∧
    kMaskLand.region = kMaskAll.region ∧
    get_outfile "/out" "/data/tas/tas_x.nc" kMaskLand =
      get_outfile "/out" "/data/tas/tas_x.nc" kMaskAll ∧
    get_outfile "/out" "/data/tas/tas_x.nc" kMaskLand =
      .ok "/out/tas_x_2000-2001_JJA_CLIM_CEU.nc" := by
  refine ⟨by decide, rfl, rfl, rfl, rfl, rfl, by decide⟩

/-- C5 amended: the output path depends only on the five components
(basename of the input file, time window, season, aggregation, region);
in particular the mask-ocean flag is not part of the cache key, and any
non-overwrite invocation that finds a field persisted at its output path
returns it as-is, whatever its own mask-ocean flag is. -/
theorem outfile_key_is_five_tuple :
    (∀ (basePath infile : String) (k1 k2 : Kwargs),
      k1.timePeriod = k2.timePeriod → k1.season = k2.season →
      k1.timeAggregation = k2.timeAggregation → k1.region = k2.region →
      get_outfile basePath infile k1 = get_outfile basePath infile k2) ∧
    (∀ (env : Env) (infile v p : String) (tp : Option (Nat × Nat))
       (season agg : Option String) (mo : Bool) (region : Region)
       (rg : Bool) (f : Field),
      env.store p = some f →
      calculate_basic_diagnostic env infile v (some p) tp season agg mo
        region false rg = .ok (f, none)) := by
  constructor
  · intro basePath infile k1 k2 ht hs ha hr
    unfold get_outfile
    rw [ht, hs, ha, hr]
  · intro env infile v p tp season agg mo region rg f h
    unfold calculate_basic_diagnostic
    simp [h]

/-- An environment whose store already holds a persisted diagnostic at
the path the two mask-ocean variants share. -/
def envCached : Env :=
  { store := storeOf "/out/tas_x_2000-2001_JJA_CLIM_CEU.nc" degCField
    sqrtQ := fun q => q
    mapKeys := fun _ => 0
    srexCodesOf := fun _ => []
    landOf := fun _ => []
    regridOf := fun s => s }

/-- Witness: the shared-path equality at the two concrete mask-ocean
variants, and the cached-reuse behaviour of a concrete ocean-masked
invocation hitting the path persisted by the unmasked one. -/
theorem outfile_key_is_five_tuple_w :
    get_outfile "/out" "/data/tas/tas_x.nc" kMaskLand =
      get_outfile "/out" "/data/tas/tas_x.nc" kMaskAll ∧
    calculate_basic_diagnostic envCached "in.nc" "tas"
        (some "/out/tas_x_2000-2001_JJA_CLIM_CEU.nc")
        none none none true (.srex ["CEU"]) false false
      = .ok (degCField, none) :=
  ⟨outfile_key_is_five_tuple.1 "/out" "/data/tas/tas_x.nc" kMaskLand
      kMaskAll rfl rfl rfl rfl,
   outfile_key_is_five_tuple.2 envCached "in.nc" "tas"
      "/out/tas_x_2000-2001_JJA_CLIM_CEU.nc" none none none true
      (.srex ["CEU"]) false degCField (by decide)⟩

/-- The time/season/region/ocean-mask selection block of the source
(diagnostics.py lines 204-252), as one step. -/
def selectStage (env : Env) (tp : Option (Nat × Nat))
    (season : Option String) (maskOcean : Bool) (region : Region)
    (da : Field) : Except PyErr Field := do
  let da2 ← selSeason season (selTime tp da)
  let da3 ← selRegion env region da2
  pure (selOcean env maskOcean da3)

/-- The basic pipeline written as the explicit stage composition in the
order the source actually applies: grid validation, then selection
(time, season, region, ocean mask), then unit normalisation, then
temporal reduction, then persistence. -/
def orderedBasicDiagnostic (env : Env) (infile varn : String)
    (outfile : Option String) (tp : Option (Nat × Nat))
    (season agg : Option String) (maskOcean : Bool) (region : Region)
    (overwrite regrid : Bool) :
    Except PyErr (Field × Option (String × Field)) :=
  let cached : Option Field :=
    match outfile with
    | some p => if overwrite then none else env.store p
    | none => none
  match cached with
  | some f => .ok (f, none)
  | none =>
    let infile2 := if regrid then env.regridOf infile else infile
    match env.store infile2 with
    | none => .error (.fileNotFound infile2)
    | some da0 =>
      if da0.lat ≠ fixedLats then
        .error (.assertionError "lat coordinates do not match the fixed grid")
      else if da0.lon ≠ fixedLons then
        .error (.assertionError "lon coordinates do not match the fixed grid")
      else do
        let da4 ← selectStage env tp season maskOcean region da0
        let da5 ← unitsStage varn da4
        persistStep outfile (aggStage env.sqrtQ agg da5)

/-- Modelled from the claim's words: the same stages composed in the
order the claim asserts — grid validation, then unit normalisation, then
time/season/region/ocean-mask selection, then temporal reduction. -/
def claimOrderBasicDiagnostic (env : Env) (infile varn : String)
    (outfile : Option String) (tp : Option (Nat × Nat))
    (season agg : Option String) (maskOcean : Bool) (region : Region)
    (overwrite regrid : Bool) :
    Except PyErr (Field × Option (String × Field)) :=
  let cached : Option Field :=
    match outfile with
    | some p => if overwrite then none else env.store p
    | none => none
  match cached with
  | some f => .ok (f, none)
  | none =>
    let infile2 := if regrid then env.regridOf infile else infile
    match env.store infile2 with
    | none => .error (.fileNotFound infile2)
    | some da0 =>
      if da0.lat ≠ fixedLats then
        .error (.assertionError "lat coordinates do not match the fixed grid")
      else if da0.lon ≠ fixedLons then
        .error (.assertionError "lon coordinates do not match the fixed grid")
      else do
        let dau ← unitsStage varn da0
        let da4 ← selectStage env tp season maskOcean region dau
        persistStep outfile (aggStage env.sqrtQ agg da4)

/-- The selection/units/reduction tail of the pipeline is the same
whether the three selection stages are chained directly (as the source
writes them) or grouped into one `selectStage` step: `Except`-bind
reassociation. -/
theorem pipelineChainEq (env : Env) (varn : String)
    (outfile : Option String) (tp : Option (Nat × Nat))
    (season agg : Option String) (mo : Bool) (region : Region)
    (da0 : Field) :
    (do
      let da2 ← selSeason season (selTime tp da0)
      let da3 ← selRegion env region da2
      let da5 ← unitsStage varn (selOcean env mo da3)
      persistStep outfile (aggStage env.sqrtQ agg da5) :
        Except PyErr (Field × Option (String × Field)))
    = (do
        let da4 ← selectStage env tp season mo region da0
        let da5 ← unitsStage varn da4
        persistStep outfile (aggStage env.sqrtQ agg da5)) := by
  unfold selectStage
  rcases selSeason season (selTime tp da0) with e | da2
  · rfl
  · dsimp only [Bind.bind, Except.bind]
    rcases selRegion env region da2 with e2 | da3 <;> rfl

/-- C6 counterexample: on a units-less field whose region mask removes
every cell, the source pipeline fails in the SELECTION stage (the
empty-region `ValueError`), while the claimed order — units before any
selection — would fail in the units stage (`AttributeError` on the
`None` sentinel).  The two orders are observably different, so the
claimed order is not the code's order. -/
theorem pipeline_units_after_selection_cx :
    calculate_basic_diagnostic (envOf noUnitsField [0] [true]) "in.nc"
        "tas" none none none none false (.srex ["CEU"]) false false
      = .error (.valueError "All grid points masked! Wrong masking settings?") ∧
    claimOrderBasicDiagnostic (envOf noUnitsField [0] [true]) "in.nc"
        "tas" none none none none false (.srex ["CEU"]) false false
      = .error (.attributeError "NoneType object has no attribute attrs") := by
  constructor
  · decide
  · decide

/-- C6 amended: the basic pipeline applies its stages in the fixed order
grid validation, then time/season/region/ocean-mask selection, then unit
normalisation, then temporal reduction — the reducer still runs strictly
after unit normalisation, but unit normalisation runs after (not before)
the selection stages. -/
theorem pipeline_stage_order :
    ∀ (env : Env) (infile varn : String) (outfile : Option String)
      (tp : Option (Nat × Nat)) (season agg : Option String)
      (mo : Bool) (region : Region) (ow rg : Bool),
      calculate_basic_diagnostic env infile varn outfile tp season agg
          mo region ow rg
        = orderedBasicDiagnostic env infile varn outfile tp season agg
          mo region ow rg := by
  intro env infile varn outfile tp season agg mo region ow rg
  unfold calculate_basic_diagnostic orderedBasicDiagnostic
  rcases outfile with _ | p
  · rcases hst : env.store (if rg then env.regridOf infile else infile)
      with _ | da0
    · simp only [hst]
    · simp only [hst]
      split_ifs with h1 h2
      · rfl
      · rfl
      · exact pipelineChainEq env varn none tp season agg mo region da0
  · rcases how : (if ow then none else env.store p) with _ | f
    · simp only [how]
      rcases hst : env.store (if rg then env.regridOf infile else infile)
        with _ | da0
      · simp only [hst]
      · simp only [hst]
        split_ifs with h1 h2
        · rfl
        · rfl
        · exact pipelineChainEq env varn (some p) tp season agg mo region da0
    · simp only [how]

/-- The field left by the C7 counterexample run: region masking kept the
cell, ocean masking then removed it. -/
def oceanWipedField : Field := { degCField with cells := [[none, none, none]] }

/-- C7 counterexample: a request whose region mask keeps the cell but
whose ocean mask then removes every cell COMPLETES SUCCESSFULLY with an
all-missing first time slice — the emptiness check does not run after
ocean masking, contradicting the claim that every request fails with
`EmptyRegion` in this situation. -/
theorem empty_after_ocean_mask_accepted :
    calculate_basic_diagnostic (envOf degCField [11] [false]) "in.nc"
        "tas" none none none none true (.srex ["CEU"]) false false
      = .ok (oceanWipedField, none) ∧
    firstAllMissing oceanWipedField = true := by
  constructor
  · decide
  · decide

/-- C7 amended: the all-masked check guards only the region-selection
stage — a successful non-GLOBAL region selection guarantees a
non-missing cell in the first time slice at that point, while `'GLOBAL'`
requests skip the check entirely (and ocean masking, applied afterwards,
is never re-checked). -/
theorem empty_region_check_scope :
    (∀ (env : Env) (names : List String) (da da2 : Field),
      selRegion env (.srex names) da = .ok da2 →
      firstAllMissing da2 = false) ∧
    (∀ (env : Env) (da : Field), selRegion env .GLOBAL da = .ok da) := by
  constructor
  · intro env names da da2 h
    unfold selRegion at h
    dsimp only at h
    split_ifs at h with hc
    cases h
    simpa using hc
  · intro env da
    rfl

/-- Witness: the concrete region selection that precedes the C7
counterexample's ocean mask indeed leaves a present cell, and a GLOBAL
selection is a no-op. -/
theorem empty_region_check_scope_w :
    firstAllMissing degCField = false ∧
    selRegion (envOf degCField [11] [false]) .GLOBAL degCField
      = .ok degCField :=
  ⟨empty_region_check_scope.1 (envOf degCField [11] [false]) ["CEU"]
      degCField degCField (by decide),
   empty_region_check_scope.2 (envOf degCField [11] [false]) degCField⟩

/-- A strict (NaN-propagating) sum with a missing term is missing. -/
theorem strictSum_none_mem : ∀ {l : List F}, none ∈ l → strictSum l = none := by
  intro l h
  induction l with
  | nil => cases h
  | cons a t ih =>
    rw [List.mem_cons] at h
    rcases h with h | h
    · rw [← h]
      rfl
    · have ht : strictSum t = none := ih h
      unfold strictSum at ht ⊢
      rw [List.foldr_cons, ht]
      cases a <;> rfl

/-- A strict (NaN-propagating) mean with a missing term is missing. -/
theorem strictMean_none_mem {l : List F} (h : none ∈ l) :
    strictMean l = none := by
  have hs := strictSum_none_mem h
  have hne : l.length ≠ 0 := by
    cases l
    · cases h
    · simp
  simp [strictMean, hne, hs]

/-- Modelled from the spec: the climatology as the mean of
per-calendar-year means — average within each calendar year first, then
average the per-year means. -/
def meanOfYearlyMeans (pairs : List (Nat × F)) : F :=
  strictMean ((uniqueKeys (pairs.map Prod.fst)).map fun y =>
    strictMean ((pairs.filter fun p => p.1 = y).map Prod.snd))

/-- C8: the `CLIM` reduction is the mean of per-calendar-year means, not
a flat mean over all timesteps, and propagates missing values strictly:
a year containing a missing timestep has a missing annual mean, and a
missing annual mean makes the final climatology missing.  The last
conjunct exhibits a series with uneven per-year timestep counts on which
the mean-of-yearly-means (3/2) differs from the flat mean (1). -/
theorem clim_is_mean_of_yearly_means :
    (∀ pairs : List (Nat × F), climSeries pairs = meanOfYearlyMeans pairs) ∧
    (∀ (pairs : List (Nat × F)) (y : Nat),
      (y, (none : F)) ∈ pairs → yearMean pairs y = none) ∧
    (∀ (pairs : List (Nat × F)) (y : Nat),
      y ∈ uniqueKeys (pairs.map Prod.fst) → yearMean pairs y = none →
      climSeries pairs = none) ∧
    climSeries [(2000, some 0), (2000, some 0), (2001, some 3)] ≠
      strictMean ([(2000, some 0), (2000, some 0), (2001, some 3)].map
        Prod.snd) := by
  refine ⟨fun pairs => rfl, ?_, ?_, ?_⟩
  · intro pairs y h
    apply strictMean_none_mem
    exact List.mem_map.mpr
      ⟨(y, none), List.mem_filter.mpr ⟨h, by simp⟩, rfl⟩
  · intro pairs y hy hnone
    apply strictMean_none_mem
    exact List.mem_map.mpr ⟨y, hy, hnone⟩
  · simp only [climSeries, yearMean, uniqueKeys, strictMean, strictSum,
      meanOfYearlyMeans, List.map_cons, List.map_nil, List.filter,
      List.foldr_cons, List.foldr_nil]
    norm_num

/-- Witness: a year with a missing timestep has a missing annual mean,
and that missing annual mean poisons the whole climatology. -/
theorem clim_is_mean_of_yearly_means_w :
    yearMean [(2000, (none : F)), (2001, some 1)] 2000 = none ∧
    climSeries [(2000, (none : F)), (2001, some 1)] = none :=
  ⟨clim_is_mean_of_yearly_means.2.1 [(2000, none), (2001, some 1)] 2000
      (by decide),
   clim_is_mean_of_yearly_means.2.2.1 [(2000, none), (2001, some 1)] 2000
      (by decide) (by decide)⟩

/-- C9: although the spec calls the time window, season, aggregation and
region optional, `calculate_diagnostic` builds the output filename
first, and that template subscripts `time_period` and interpolates
`season`, `time_aggregation` and `region` — so `time_period=None` fails
with `TypeError` before any diagnostic is computed (the result does not
depend on the environment at all), and a missing `region`, `time_period`,
`season` or `time_aggregation` key never completes successfully. -/
theorem compute_requires_full_parameters :
    (∀ (env env2 : Env) (infile basePath v : String) (k : Kwargs),
      k.region ≠ none → k.timePeriod = some none →
      calculate_diagnostic env infile (.basic v) basePath k
          = .error (.typeError "NoneType object is not subscriptable") ∧
      calculate_diagnostic env infile (.basic v) basePath k
          = calculate_diagnostic env2 infile (.basic v) basePath k) ∧
    (∀ (env : Env) (infile basePath v : String) (k : Kwargs),
      k.region = none ∨ k.timePeriod = none ∨ k.season = none ∨
        k.timeAggregation = none →
      isOkE (calculate_diagnostic env infile (.basic v) basePath k)
        = false) := by
  constructor
  · intro env env2 infile basePath v k hr ht
    have herr : ∀ e : Env,
        calculate_diagnostic e infile (.basic v) basePath k
          = .error (.typeError "NoneType object is not subscriptable") := by
      intro e
      rcases hk : k.region with _ | r
      · exact absurd hk hr
      · simp only [calculate_diagnostic, get_outfile, hk, ht]
        rfl
    exact ⟨herr env, (herr env).trans (herr env2).symm⟩
  · intro env infile basePath v k h
    have hbind : isOkE (get_outfile basePath infile k) = false →
        isOkE (calculate_diagnostic env infile (.basic v) basePath k)
          = false := by
      intro hg
      rcases hge : get_outfile basePath infile k with e | s
      · simp only [calculate_diagnostic, hge]
        rfl
      · rw [hge] at hg
        simp [isOkE] at hg
    apply hbind
    rcases h with h | h | h | h
    · simp [get_outfile, h, isOkE]
    · rcases hk : k.region with _ | r
      · simp [get_outfile, hk, isOkE]
      · simp [get_outfile, hk, h, isOkE]
    · rcases hk : k.region with _ | r
      · simp [get_outfile, hk, isOkE]
      · rcases htp : k.timePeriod with _ | tpv
        · simp [get_outfile, hk, htp, isOkE]
        · rcases tpv with _ | pp
          · simp [get_outfile, hk, htp, isOkE]
          · simp [get_outfile, hk, htp, h, isOkE]
    · rcases hk : k.region with _ | r
      · simp [get_outfile, hk, isOkE]
      · rcases htp : k.timePeriod with _ | tpv
        · simp [get_outfile, hk, htp, isOkE]
        · rcases tpv with _ | pp
          · simp [get_outfile, hk, htp, isOkE]
          · rcases hs : k.season with _ | sv
            · simp [get_outfile, hk, htp, hs, isOkE]
            · simp [get_outfile, hk, htp, hs, h, isOkE]

/-- Witness: a concrete fully-populated request except for
`time_period=None` fails with the subscription `TypeError`, and one with
the `season` key absent fails as well. -/
theorem compute_requires_full_parameters_w :
    calculate_diagnostic (envOf degCField [] []) "in.nc" (.basic "tas")
        "/out" { kMaskLand with timePeriod := some none }
      = .error (.typeError "NoneType object is not subscriptable") ∧
    isOkE (calculate_diagnostic (envOf degCField [] []) "in.nc"
        (.basic "tas") "/out" { kMaskLand with season := none }) = false :=
  ⟨(compute_requires_full_parameters.1 (envOf degCField [] [])
      (envOf degCField [] []) "in.nc" "/out" "tas"
      { kMaskLand with timePeriod := some none } (by decide) rfl).1,
   compute_requires_full_parameters.2 (envOf degCField [] []) "in.nc"
      "/out" "tas" { kMaskLand with season := none }
      (Or.inr (Or.inr (Or.inl rfl)))⟩

/-- Pointwise NaN lemmas used to track `pearsonr` through missing data. -/
theorem oSub_none_right (a : F) : oSub a none = none := by
  cases a <;> rfl

/-- Multiplying NaN from the right is NaN. -/
theorem oMul_none_right (a : F) : oMul a none = none := by
  cases a <;> rfl

/-- Dividing by NaN is NaN. -/
theorem oDiv_none_right (a : F) : oDiv a none = none := by
  cases a <;> rfl

/-- A missing value anywhere in a series poisons the centred
second-moment sum of `pearsonr`. -/
theorem centredMomentSum_none {xs : List F} (h : none ∈ xs) :
    strictSum ((xs.map fun x => oSub x (strictMean xs)).map
      fun v => oMul v v) = none := by
  apply strictSum_none_mem
  have hm : strictMean xs = none := strictMean_none_mem h
  rcases xs with _ | ⟨a, t⟩
  · cases h
  · refine List.mem_map.mpr ⟨oSub a (strictMean (a :: t)), ?_, ?_⟩
    · exact List.mem_map.mpr ⟨a, List.mem_cons_self a t, rfl⟩
    · rw [hm, oSub_none_right]
      rfl

/-- C10: the `_corr` kernel applies no missing-value guard — a missing
value in either input series flows through the raw `pearsonr` arithmetic
and yields NaN (not an error) — unlike the `trend` and `detrend` kernels,
which explicitly map any series containing a missing value to an
all-missing result before computing. -/
theorem corr_has_no_missing_guard :
    (∀ (sq : ℚ → ℚ) (xs ys : List F),
      xs.any Option.isNone = true ∨ ys.any Option.isNone = true →
      corrSeries sq xs ys = none) ∧
    (∀ s : List F, s.any Option.isNone = true →
      trendSeries s = none ∧
      detrendSeries s = s.map fun _ => none) := by
  constructor
  · intro sq xs ys h
    have hmem : ∀ {l : List F}, l.any Option.isNone = true → none ∈ l := by
      intro l hl
      rcases List.any_eq_true.mp hl with ⟨x, hx, hxn⟩
      cases x with
      | none => exact hx
      | some v => simp at hxn
    unfold corrSeries
    dsimp only
    rcases h with h | h
    · rw [centredMomentSum_none (hmem h)]
      exact oDiv_none_right _
    · rw [centredMomentSum_none (hmem h), oMul_none_right]
      exact oDiv_none_right _
  · intro s h
    constructor
    · simp [trendSeries, h]
    · simp [detrendSeries, h]

/-- Witness: a missing value in the first series makes the unguarded
correlation NaN, while trend and detrend hit their explicit guards. -/
theorem corr_has_no_missing_guard_w :
    corrSeries (fun q => q) [none, some 1] [some 2, some 3] = none ∧
    trendSeries [none, some 1] = none ∧
    detrendSeries [none, some 1] = [none, some 1].map (fun _ => none) :=
  ⟨corr_has_no_missing_guard.1 (fun q => q) [none, some 1] [some 2, some 3]
      (Or.inl (by decide)),
   (corr_has_no_missing_guard.2 [none, some 1] (by decide)).1,
   (corr_has_no_missing_guard.2 [none, some 1] (by decide)).2⟩

end ClimWIP
